import Mathlib

/-!
Verification of the coinbase-data-fetcher repository: a shallow embedding
of the market-data acquisition core (rate-limited transport, earliest-date
locators, probe construction, candle interpolation, prefetch loop) with
theorems settling the frozen claims about it.

Sources embedded:
* check_coin_dates.py       (requests_get, check_date_has_data,
                             binary_search_earliest_date)
* scripts/update_coins.py   (rate_limited_request, check_data_exists,
                             find_earliest_date_optimized)
* src/coinbase_data_fetcher/prefetch.py (fetch_data_for_coin,
                             prefetch_all_data)
* src/coinbase_data_fetcher/models.py   (price_interpolation policies;
                             the implementing fetcher.py is not in the
                             repository snapshot, so the interpolation is
                             modelled from the spec)
-/

/-- One row of the JSON body returned by the Coinbase candles endpoint:
`[time, low, high, open, close, volume]` (the `response.json()` array in
check_coin_dates.py).  Prices are modelled as rationals. -/
structure CandleRow where
  time : Nat
  low : ℚ
  high : ℚ
  openPrice : ℚ
  closePrice : ℚ
  volume : ℚ
deriving DecidableEq

/-- Outcome of one raw attempt inside `requests_get` (check_coin_dates.py
lines 16-27): `requests.get` may raise `Timeout` (the only exception type
tenacity is told to retry) or some other exception; otherwise a response
with an HTTP status code and JSON body is obtained, and
`response.raise_for_status()` raises for any status >= 400. -/
inductive Attempt where
  | timeout
  | otherException
  | response (status : Nat) (body : List CandleRow)
deriving DecidableEq

/-- Result of a whole `requests_get` call. `httpError` is the
`requests.exceptions.HTTPError` raised by `raise_for_status` (tenacity does
not retry it); `raisedOther` is any non-timeout exception from
`requests.get` (also not retried); `retriesExhausted` is tenacity's
`RetryError` after `stop_after_attempt(5)` has consumed all attempts on
timeouts. -/
inductive CallResult where
  | success (status : Nat) (body : List CandleRow)
  | httpError (status : Nat)
  | raisedOther
  | retriesExhausted
deriving DecidableEq

/-- The attempt loop of `requests_get` under tenacity's
`retry(stop=stop_after_attempt(5), retry=retry_if_exception_type(Timeout))`:
`attempt n` is the outcome of the n-th raw call (0-indexed), `fuel` is the
number of attempts remaining.  Only `Timeout` is retried; any other
exception propagates at once; a response with status >= 400 raises
`HTTPError` via `raise_for_status`, a lower status is returned. -/
def requests_get_attempts (attempt : Nat → Attempt) : Nat → Nat → CallResult
  | _, 0 => .retriesExhausted
  | n, fuel + 1 =>
    match attempt n with
    | .timeout => requests_get_attempts attempt (n + 1) fuel
    | .otherException => .raisedOther
    | .response status body =>
      if 400 ≤ status then .httpError status else .success status body

/-- `requests_get` (check_coin_dates.py lines 16-27): the decorated GET,
with `stop_after_attempt(5)` giving five attempts in total. -/
def requests_get (attempt : Nat → Attempt) : CallResult :=
  requests_get_attempts attempt 0 5

/-- tenacity `wait_exponential(multiplier=1, min=2, max=10)`: the delay in
seconds slept before the retry that follows attempt number `n`
(1-indexed), namely `multiplier * 2 ^ (n - 1)` clamped into `[min, max]`. -/
def wait_exponential (n : Nat) : Nat :=
  max 2 (min (2 ^ (n - 1)) 10)

/-- A request to `GET /products/{symbol}/candles`.  `stop` is the source's
`end` query parameter (`end` is a Lean keyword).  The time unit of
`start`/`stop` is whole days for requests built by check_coin_dates.py
(every timestamp there is midnight-aligned) and seconds for requests built
by update_coins.py; `granularity` is in seconds in both, as in the source. -/
structure Request where
  symbol : String
  granularity : Nat
  start : Nat
  stop : Nat
deriving DecidableEq

/-- The single request issued by `check_date_has_data`
(check_coin_dates.py lines 30-42): window `[test_date, test_date + 1 day)`
at granularity 86400.  Time unit: days, so one day is `+ 1`. -/
def check_date_has_data_request (symbol : String) (test_date : Nat) : Request :=
  { symbol := symbol, granularity := 86400,
    start := test_date, stop := test_date + 1 }

/-- `check_date_has_data` (check_coin_dates.py lines 30-50): issues the one
request above through `requests_get` and returns `len(data) > 0`; the
surrounding `try/except Exception` turns ANY failure of the call (network
error, HTTP error, malformed body) into `False`.  The transport plus JSON
decoding is abstracted as `respond`, where `none` models a raised
exception and `some data` a decoded JSON array. -/
def check_date_has_data (respond : Request → Option (List CandleRow))
    (symbol : String) (test_date : Nat) : Bool :=
  match respond (check_date_has_data_request symbol test_date) with
  | some data => decide (0 < data.length)
  | none => false

/-- The while-loop of `binary_search_earliest_date` (check_coin_dates.py
lines 65-76).  Timestamps are whole days.  State: `latest_without` (no
data confirmed or unprobed) and `earliest_known` (data confirmed); the
loop runs while `(earliest_known - latest_without).days > 1`, probes the
midpoint truncated to a whole day, and moves the matching bound.  With
day-aligned bounds `L`, `H` the source midpoint
`latest_without + (earliest_known - latest_without) // 2` followed by
`.replace(hour=0, minute=0, second=0, microsecond=0)` equals
`L + (H - L) / 2` in day units: the timedelta is `(H - L) * 86400` seconds,
halving gives `(H - L) * 43200` seconds, and flooring to midnight drops the
extra 12 hours exactly when `H - L` is odd.  Returns the final
`(latest_without, earliest_known)` pair and the chronological list of
probed midpoints. -/
def binary_search_earliest_date_loop (probe : Nat → Bool)
    (latest_without earliest_known : Nat) : (Nat × Nat) × List Nat :=
  if h : 1 < earliest_known - latest_without then
    if probe (latest_without + (earliest_known - latest_without) / 2) then
      let r := binary_search_earliest_date_loop probe latest_without
        (latest_without + (earliest_known - latest_without) / 2)
      (r.1, (latest_without + (earliest_known - latest_without) / 2) :: r.2)
    else
      let r := binary_search_earliest_date_loop probe
        (latest_without + (earliest_known - latest_without) / 2) earliest_known
      (r.1, (latest_without + (earliest_known - latest_without) / 2) :: r.2)
  else ((latest_without, earliest_known), [])
termination_by earliest_known - latest_without
decreasing_by
  all_goals omega

/-- `binary_search_earliest_date` (check_coin_dates.py lines 53-87),
over an abstract probe (`check_date_has_data` applied to a symbol).
First probes `end_date`; on no data returns `None` at once.  Otherwise
runs the loop, re-verifies the converged `earliest_known` with one final
probe, falls back to the next day, and returns `None` if both fail.
Result: the located day (if any) together with the chronological list of
all probed days. -/
def binary_search_earliest_date (probe : Nat → Bool)
    (start_date end_date : Nat) : Option Nat × List Nat :=
  if probe end_date = false then (none, [end_date])
  else
    let r := binary_search_earliest_date_loop probe start_date end_date
    if probe r.1.2 then (some r.1.2, (end_date :: r.2) ++ [r.1.2])
    else if probe (r.1.2 + 1) then
      (some (r.1.2 + 1), (end_date :: r.2) ++ [r.1.2, r.1.2 + 1])
    else (none, (end_date :: r.2) ++ [r.1.2, r.1.2 + 1])

/-- Midnight truncation `date.replace(hour=0, minute=0, second=0,
microsecond=0)` used by `check_data_exists` in update_coins.py.  Time
unit: seconds. -/
def dayFloor (t : Nat) : Nat := t - t % 86400

/-- The single request issued by `check_data_exists` (update_coins.py
lines 46-58): `start` is the probed date truncated to midnight, `end` is
`start + timedelta(hours=1)`, granularity 3600.  Time unit: seconds. -/
def check_data_exists_request (product_id : String) (date : Nat) : Request :=
  { symbol := product_id, granularity := 3600,
    start := dayFloor date, stop := dayFloor date + 3600 }

/-- `check_data_exists` (update_coins.py lines 46-61): issues the one
request above through `rate_limited_request` — which returns `None` on any
exception or on a non-200 status — and returns
`data is not None and len(data) > 0`.  `respond` abstracts
`rate_limited_request`: `none` models its `None`, `some data` a decoded
JSON array. -/
def check_data_exists (respond : Request → Option (List CandleRow))
    (product_id : String) (date : Nat) : Bool :=
  match respond (check_data_exists_request product_id date) with
  | some data => decide (0 < data.length)
  | none => false

/-- The while-loop of `find_earliest_date_optimized` (update_coins.py
lines 85-92).  Time unit: seconds; `(right - left).days > 1` is
`(right - left) / 86400 > 1`, and the un-truncated midpoint
`left + (right - left) / 2` is modelled with Nat floor division (the
source halves a timedelta at microsecond resolution; the sub-second
rounding cannot affect the day-level probes).  `earliest` models
`earliest_with_data`, updated only when a midpoint probe succeeds.
Returns its final value and the chronological list of probed midpoints. -/
def find_earliest_date_loop (probe : Nat → Bool) (left right : Nat)
    (earliest : Option Nat) : Option Nat × List Nat :=
  if h : 1 < (right - left) / 86400 then
    if probe (left + (right - left) / 2) then
      let r := find_earliest_date_loop probe left
        (left + (right - left) / 2) (some (left + (right - left) / 2))
      (r.1, (left + (right - left) / 2) :: r.2)
    else
      let r := find_earliest_date_loop probe
        (left + (right - left) / 2) right earliest
      (r.1, (left + (right - left) / 2) :: r.2)
  else (earliest, [])
termination_by right - left
decreasing_by
  all_goals omega

/-- `find_earliest_date_optimized` (update_coins.py lines 64-97).  The
`KNOWN_START_DATES` dictionary lookup is abstracted to its result
`known` (`some actual_start` for the three listed products, `none` for
every other product).  For unknown products: probe `end_date` (yesterday);
without recent data return `None`; otherwise run the binary-search loop
between `search_from` and `end_date` and return `earliest_with_data`,
which the source then formats with `strftime` — the returned timestamp is
kept raw here. -/
def find_earliest_date_optimized (known : Option Nat)
    (respond : Request → Option (List CandleRow)) (product_id : String)
    (search_from end_date : Nat) : Option Nat :=
  match known with
  | some actual_start => some actual_start
  | none =>
    if check_data_exists respond product_id end_date then
      (find_earliest_date_loop (check_data_exists respond product_id)
        search_from end_date none).1
    else none

/-- `find_earliest_date_optimized` (update_coins.py lines 64-97)
instrumented with the chronological list of dates probed through
`check_data_exists`: the upper-bound probe first, then — only when it
succeeded — the loop's midpoints.  Same control flow as
`find_earliest_date_optimized`; `find_earliest_date_optimized_probes_fst`
proves the two always agree on the returned timestamp. -/
def find_earliest_date_optimized_probes (known : Option Nat)
    (respond : Request → Option (List CandleRow)) (product_id : String)
    (search_from end_date : Nat) : Option Nat × List Nat :=
  match known with
  | some actual_start => (some actual_start, [])
  | none =>
    if check_data_exists respond product_id end_date then
      ((find_earliest_date_loop (check_data_exists respond product_id)
          search_from end_date none).1,
        end_date :: (find_earliest_date_loop
          (check_data_exists respond product_id)
          search_from end_date none).2)
    else (none, [end_date])

/-- A synthetic data source whose history begins exactly at timestamp
`T0`: any candles request whose window starts at or after `T0` returns one
row, any earlier window returns the empty array (a valid "no data"
response). -/
def boundaryOracle (T0 : Nat) : Request → Option (List CandleRow) :=
  fun req => if T0 ≤ req.start then some [⟨0, 0, 0, 0, 0, 0⟩] else some []

/-- A candle as in the spec data model: OHLC prices over a bucket starting
at `open_time`. -/
structure Candle where
  open_time : Nat
  openPrice : ℚ
  high : ℚ
  low : ℚ
  closePrice : ℚ
deriving DecidableEq

/-- Modelled from the spec: the Candle Interpolator implementation
(`fetch_prices` in coinbase_data_fetcher/fetcher.py) is not in the
repository snapshot; only its declaration sites are (the
`price_interpolation` field of CoinDataModel and `CoinData.fetch_prices`
in models.py).  Spec section 4.5, Hi-Lo policy: for each candle, if
`close >= open` (bullish) the price path begins at `low` and ends at
`high`; if bearish it begins at `high` and ends at `low`; consecutive
candles are linearly connected through their endpoints.  The path is
modelled by its per-candle control points in order. -/
def hiLoPath (candles : List Candle) : List ℚ :=
  candles.flatMap fun cd =>
    if cd.openPrice ≤ cd.closePrice then [cd.low, cd.high]
    else [cd.high, cd.low]

/-- Modelled from the spec: same missing implementation as `hiLoPath`.
Spec section 4.5, Mean policy: each candle contributes a single point,
the arithmetic mean of its high and low. -/
def meanPath (candles : List Candle) : List ℚ :=
  candles.map fun cd => (cd.high + cd.low) / 2

/-- `fetch_data_for_coin` (prefetch.py lines 16-50): fetches one
(coin, granularity) pair; `fetchOutcome` abstracts the whole body
(`fetch_prices` plus the CSV write), with `Except.error` modelling any
raised exception. -/
def fetch_data_for_coin (fetchOutcome : String → Nat → Except String Unit)
    (coin : String) (granularity : Nat) : Except String Unit :=
  fetchOutcome coin granularity

/-- `prefetch_all_data` (prefetch.py lines 53-69): the nested loop over
all coins and all granularities; each body call is wrapped in
`try/except Exception`, so a failure is printed and the loop continues
with the next pair.  Recorded result: one entry per processed pair, with
`true` on success and `false` on a caught and reported error. -/
def prefetch_all_data (fetchOutcome : String → Nat → Except String Unit)
    (coins : List String) (granularities : List Nat) :
    List (String × Nat × Bool) :=
  coins.flatMap fun coin =>
    granularities.map fun granularity =>
      match fetch_data_for_coin fetchOutcome coin granularity with
      | .ok _ => (coin, granularity, true)
      | .error _ => (coin, granularity, false)

/-- Any `some` result of `binary_search_earliest_date` was confirmed by the
final verification probes: the probe holds at the returned day, which is
the converged `earliest_known` or the next-day fallback. -/
theorem bsearch_some_probed (probe : Nat → Bool) (sd ed t : Nat)
    (h : (binary_search_earliest_date probe sd ed).1 = some t) :
    probe t = true ∧
      (t = (binary_search_earliest_date_loop probe sd ed).1.2 ∨
        t = (binary_search_earliest_date_loop probe sd ed).1.2 + 1) := by
  unfold binary_search_earliest_date at h
  by_cases h0 : probe ed = false
  · rw [if_pos h0] at h
    exact absurd h (by simp)
  · rw [if_neg h0] at h
    by_cases h1 : probe (binary_search_earliest_date_loop probe sd ed).1.2 = true
    · rw [if_pos h1] at h
      simp only [Option.some.injEq] at h
      exact ⟨h ▸ h1, Or.inl h.symm⟩
    · rw [if_neg h1] at h
      by_cases h2 :
          probe ((binary_search_earliest_date_loop probe sd ed).1.2 + 1) = true
      · rw [if_pos h2] at h
        simp only [Option.some.injEq] at h
        exact ⟨h ▸ h2, Or.inr h.symm⟩
      · rw [if_neg h2] at h
        exact absurd h (by simp)

/-- With the synthetic threshold probe (data exactly from day `T0` on) and
bounds straddling `T0`, the loop converges to the pair `(T0 - 1, T0)`. -/
theorem bsearch_loop_threshold (T0 : Nat) :
    ∀ n latest earliest, earliest - latest ≤ n → latest < T0 → T0 ≤ earliest →
      (binary_search_earliest_date_loop (fun d => decide (T0 ≤ d))
          latest earliest).1 = (T0 - 1, T0) := by
  intro n
  induction n with
  | zero =>
    intro L H hle hL hH
    exfalso
    omega
  | succ n ih =>
    intro L H hle hL hH
    rw [binary_search_earliest_date_loop]
    by_cases hc : 1 < H - L
    · rw [dif_pos hc]
      by_cases hp : T0 ≤ L + (H - L) / 2
      · rw [if_pos (by simpa using hp)]
        exact ih L (L + (H - L) / 2) (by omega) hL hp
      · rw [if_neg (by simpa using hp)]
        exact ih (L + (H - L) / 2) H (by omega) (by omega) hH
    · rw [dif_neg hc]
      have hLH : L = T0 - 1 ∧ H = T0 := by omega
      rw [hLH.1, hLH.2]

/-- The loop halves the interval each step, so the number of probed
midpoints is logarithmic in the width of the search interval. -/
theorem bsearch_loop_log_length (probe : Nat → Bool) :
    ∀ k latest earliest, earliest - latest ≤ 2 ^ k →
      ((binary_search_earliest_date_loop probe latest earliest).2).length ≤ k := by
  intro k
  induction k with
  | zero =>
    intro L H hle
    norm_num at hle
    rw [binary_search_earliest_date_loop, dif_neg (by omega)]
    simp
  | succ k ih =>
    intro L H hle
    rw [pow_succ] at hle
    rw [binary_search_earliest_date_loop]
    by_cases hc : 1 < H - L
    · rw [dif_pos hc]
      by_cases hp : probe (L + (H - L) / 2) = true
      · rw [if_pos hp]
        exact Nat.succ_le_succ (ih L (L + (H - L) / 2) (by omega))
      · rw [if_neg hp]
        exact Nat.succ_le_succ (ih (L + (H - L) / 2) H (by omega))
    · rw [dif_neg hc]
      simp

/-- The instrumented locator returns the same timestamp as
`find_earliest_date_optimized` on every input: the probe log is the only
addition. -/
theorem find_earliest_date_optimized_probes_fst (known : Option Nat)
    (respond : Request → Option (List CandleRow)) (product_id : String)
    (search_from end_date : Nat) :
    (find_earliest_date_optimized_probes known respond product_id
        search_from end_date).1
      = find_earliest_date_optimized known respond product_id
          search_from end_date := by
  unfold find_earliest_date_optimized_probes find_earliest_date_optimized
  cases known with
  | some actual_start => rfl
  | none =>
    by_cases hc : check_data_exists respond product_id end_date = true
    · rw [if_pos hc, if_pos hc]
    · rw [if_neg hc, if_neg hc]

/-- C2: for every symbol, if the initial probe of the upper bound of the
search interval reports no data, both earliest-date locators return
`None` immediately: `binary_search_earliest_date` (check_coin_dates.py)
returns `(none, [end_date])` — the probe log is exactly the one
upper-bound probe, so no further probe is issued and the loop is never
entered — and `find_earliest_date_optimized` (update_coins.py) likewise
probes only `end_date` and returns `None` without entering its
binary-search loop. -/
theorem locator_none_when_upper_bound_has_no_data
    (probe : Nat → Bool)
    (respond : Request → Option (List CandleRow)) (product_id : String)
    (start_date search_from end_date : Nat)
    (h : probe end_date = false)
    (h2 : check_data_exists respond product_id end_date = false) :
    binary_search_earliest_date probe start_date end_date
      = (none, [end_date]) ∧
    find_earliest_date_optimized_probes none respond product_id
        search_from end_date = (none, [end_date]) ∧
    find_earliest_date_optimized none respond product_id
        search_from end_date = none := by
  refine ⟨?_, ?_, ?_⟩
  · unfold binary_search_earliest_date
    rw [if_pos h]
  · unfold find_earliest_date_optimized_probes
    rw [if_neg (by simp [h2])]
  · unfold find_earliest_date_optimized
    rw [if_neg (by simp [h2])]

/-- Witness for C2: a never-trading probe oracle for the
check_coin_dates.py locator, and an upper-bound probe answering the empty
candle array for the update_coins.py locator. -/
theorem locator_none_when_upper_bound_has_no_data_witness :
    binary_search_earliest_date (fun _ => false) 0 10 = (none, [10]) ∧
    find_earliest_date_optimized_probes none (fun _ => some [])
        ("AVAX-USD") 0 10 = (none, [10]) ∧
    find_earliest_date_optimized none (fun _ => some []) ("AVAX-USD") 0 10
      = none :=
  locator_none_when_upper_bound_has_no_data (fun _ => false)
    (fun _ => some []) ("AVAX-USD") 0 0 10 rfl rfl

/-- C1: against a synthetic probe oracle where every day at or after `T0`
has data and every earlier day has none, with `T0` strictly inside the
search interval, `binary_search_earliest_date` returns exactly `some T0`
(which is within the claimed "T0 or T0 plus at most one day"), and the
whole run issues at most `k + 2` probes when the interval is at most
`2 ^ k` days wide (the `O(log range)` bound: loop probes plus the initial
upper-bound probe and the final verification probe). -/
theorem binary_search_earliest_date_threshold (T0 sd ed k : Nat)
    (h1 : sd < T0) (h2 : T0 < ed) (hk : ed - sd ≤ 2 ^ k) :
    (binary_search_earliest_date (fun d => decide (T0 ≤ d)) sd ed).1
        = some T0 ∧
    ((binary_search_earliest_date (fun d => decide (T0 ≤ d)) sd ed).2).length
        ≤ k + 2 := by
  have hloop := bsearch_loop_threshold T0 (ed - sd) sd ed le_rfl h1
    (le_of_lt h2)
  have hlen := bsearch_loop_log_length (fun d => decide (T0 ≤ d)) k sd ed hk
  simp only [binary_search_earliest_date, hloop]
  rw [if_neg (by simp; omega)]
  rw [if_pos (by simp)]
  refine ⟨rfl, ?_⟩
  simp only [List.length_append, List.length_cons]
  simp at hlen ⊢
  omega

/-- Witness for C1: data beginning on day 7 inside the interval [0, 10]. -/
theorem binary_search_earliest_date_threshold_witness :
    (binary_search_earliest_date (fun d => decide (7 ≤ d)) 0 10).1
        = some 7 ∧
    ((binary_search_earliest_date (fun d => decide (7 ≤ d)) 0 10).2).length
        ≤ 6 :=
  binary_search_earliest_date_threshold 7 0 10 4 (by decide) (by decide)
    (by decide)

/-- C9: whenever `binary_search_earliest_date` returns a timestamp, the
probe returned `True` for it in the final verification step, and it is
either the converged `earliest_known` day or the next-day fallback; the
function never returns a day it has not confirmed to have data. -/
theorem binary_search_earliest_date_result_verified (probe : Nat → Bool)
    (sd ed t : Nat)
    (h : (binary_search_earliest_date probe sd ed).1 = some t) :
    probe t = true ∧
      (t = (binary_search_earliest_date_loop probe sd ed).1.2 ∨
        t = (binary_search_earliest_date_loop probe sd ed).1.2 + 1) :=
  bsearch_some_probed probe sd ed t h

/-- Witness for C9 at a concrete one-day search interval. -/
theorem binary_search_earliest_date_result_verified_witness :
    (fun d => decide (1 ≤ d)) 1 = true ∧
      (1 = (binary_search_earliest_date_loop
          (fun d => decide (1 ≤ d)) 0 1).1.2 ∨
        1 = (binary_search_earliest_date_loop
          (fun d => decide (1 ≤ d)) 0 1).1.2 + 1) :=
  binary_search_earliest_date_result_verified (fun d => decide (1 ≤ d)) 0 1 1
    (by simp [binary_search_earliest_date, binary_search_earliest_date_loop])

/-- C5: a probe whose underlying transport call fails with any exception
(modelled: `respond` returns `none`) reports no data
(`check_date_has_data` returns `false`), and the locator built on it
never surfaces such a failure: any `some` result is a day whose probe
actually succeeded with a non-empty candle array.  The locator is a total
function into `Option`, so it never raises. -/
theorem check_date_probe_failure_is_no_data
    (respond : Request → Option (List CandleRow)) (symbol : String)
    (sd ed d t : Nat) :
    (respond (check_date_has_data_request symbol d) = none →
      check_date_has_data respond symbol d = false) ∧
    ((binary_search_earliest_date (check_date_has_data respond symbol)
        sd ed).1 = some t →
      ∃ data, respond (check_date_has_data_request symbol t) = some data ∧
        0 < data.length) := by
  constructor
  · intro h
    unfold check_date_has_data
    rw [h]
  · intro h
    have hp := (bsearch_some_probed _ sd ed t h).1
    unfold check_date_has_data at hp
    cases hr : respond (check_date_has_data_request symbol t) with
    | none => rw [hr] at hp; simp at hp
    | some data =>
      rw [hr] at hp
      simp only [decide_eq_true_eq] at hp
      exact ⟨data, rfl, hp⟩

/-- Witness for C5: every transport call raising (oracle constantly
`none`) makes the probe report no data. -/
theorem check_date_probe_failure_witness :
    check_date_has_data (fun _ => none) ("BTC-USD") 5 = false :=
  (check_date_probe_failure_is_no_data (fun _ => none) ("BTC-USD")
    0 1 5 0).1 rfl

/-- Consecutive timeout attempts are consumed one by one by the tenacity
retry loop, each spending one unit of the attempt budget. -/
theorem requests_get_attempts_skip_timeouts (attempt : Nat → Attempt) :
    ∀ k n fuel, k ≤ fuel → (∀ i, i < k → attempt (n + i) = .timeout) →
      requests_get_attempts attempt n fuel
        = requests_get_attempts attempt (n + k) (fuel - k) := by
  intro k
  induction k with
  | zero => intro n fuel _ _; simp
  | succ k ih =>
    intro n fuel hk h
    cases fuel with
    | zero => omega
    | succ f =>
      have h0 : attempt n = .timeout := by simpa using h 0 (by omega)
      rw [requests_get_attempts, h0]
      have hrest : ∀ i, i < k → attempt (n + 1 + i) = .timeout := by
        intro i hi
        have := h (i + 1) (by omega)
        rw [show n + 1 + i = n + (i + 1) from by omega]
        exact this
      rw [ih (n + 1) f (by omega) hrest]
      rw [show n + 1 + k = n + (k + 1) from by omega,
        show f - k = f + 1 - (k + 1) from by omega]

/-- C3 counterexample: a 5xx response is NOT retried.  The first attempt
returns HTTP 500 and every later attempt would succeed, yet the call
fails at once with the `HTTPError` of the first attempt — whereas the
claim says a 5xx outcome is retried with backoff. -/
theorem requests_get_500_not_retried :
    requests_get (fun n => if n = 0 then Attempt.response 500 []
      else Attempt.response 200 [⟨0, 0, 0, 0, 0, 0⟩])
      = CallResult.httpError 500 := by decide

/-- C3 amended: `requests_get` retries only `Timeout` outcomes, up to 5
attempts in total, with the tenacity exponential backoff delays clamped
into [2 s, 10 s]; the first non-timeout attempt decides the call (an HTTP
status >= 400, including 5xx and the 429 rate-limit signal, raises
immediately without retry, as does any other non-timeout exception), and
five consecutive timeouts exhaust the budget and surface a retry
failure. -/
theorem requests_get_retries_only_timeout :
    (∀ attempt k status body, k < 5 →
        (∀ i, i < k → attempt i = Attempt.timeout) →
        attempt k = Attempt.response status body →
        requests_get attempt =
          if 400 ≤ status then CallResult.httpError status
          else CallResult.success status body) ∧
    (∀ attempt k, k < 5 →
        (∀ i, i < k → attempt i = Attempt.timeout) →
        attempt k = Attempt.otherException →
        requests_get attempt = CallResult.raisedOther) ∧
    (∀ attempt, (∀ i, i < 5 → attempt i = Attempt.timeout) →
        requests_get attempt = CallResult.retriesExhausted) ∧
    (∀ n, 1 ≤ n → 2 ≤ wait_exponential n ∧ wait_exponential n ≤ 10) := by
  refine ⟨?_, ?_, ?_, ?_⟩
  · intro attempt k status body hk h hresp
    unfold requests_get
    rw [requests_get_attempts_skip_timeouts attempt k 0 5 (by omega)
      (by simpa using h)]
    rw [show 5 - k = (4 - k) + 1 from by omega]
    rw [requests_get_attempts]
    simp only [Nat.zero_add]
    rw [hresp]
  · intro attempt k hk h hexn
    unfold requests_get
    rw [requests_get_attempts_skip_timeouts attempt k 0 5 (by omega)
      (by simpa using h)]
    rw [show 5 - k = (4 - k) + 1 from by omega]
    rw [requests_get_attempts]
    simp only [Nat.zero_add]
    rw [hexn]
  · intro attempt h
    unfold requests_get
    rw [requests_get_attempts_skip_timeouts attempt 5 0 5 (by omega)
      (by simpa using h)]
    rfl
  · intro n hn
    constructor
    · exact le_max_left 2 (min (2 ^ (n - 1)) 10)
    · exact max_le (by norm_num) (min_le_right (2 ^ (n - 1)) 10)

/-- Witness for C3 amended: two timeouts followed by a 200 response
succeed after the retries. -/
theorem requests_get_retries_only_timeout_witness :
    requests_get (fun n => if n < 2 then Attempt.timeout
      else Attempt.response 200 []) = CallResult.success 200 [] := by
  have h := requests_get_retries_only_timeout.1
    (fun n => if n < 2 then Attempt.timeout else Attempt.response 200 [])
    2 200 [] (by omega) (fun i hi => by simp [hi]) (by simp)
  simpa using h

/-- C7 counterexample: the `update_coins.py` locator probe does not
request a one-day window at daily granularity.  At probed date 100000 s
it requests the window [86400 s, 90000 s) — one hour starting at the
preceding midnight — at granularity 3600, not [date, date + 1 day) at
granularity 86400. -/
theorem check_data_exists_request_hour_window :
    check_data_exists_request ("BTC-USD") 100000
        = { symbol := "BTC-USD", granularity := 3600,
            start := 86400, stop := 90000 } ∧
      (check_data_exists_request ("BTC-USD") 100000).granularity ≠ 86400 ∧
      (check_data_exists_request ("BTC-USD") 100000).start ≠ 100000 := by
  refine ⟨by decide, by decide, by decide⟩

/-- C7 amended: each locator probe issues exactly one transport call and
reports data present exactly when the call succeeded with a non-empty
array; in check_coin_dates.py the request is the single-day window
[date, date + 1 day) at granularity 86400 (time unit days: one day is
`+ 1`), while in update_coins.py it is the one-hour window
[midnight of date, midnight + 3600 s) at granularity 3600. -/
theorem probe_request_shapes (respond : Request → Option (List CandleRow))
    (symbol : String) (d : Nat) :
    check_date_has_data_request symbol d
        = { symbol := symbol, granularity := 86400,
            start := d, stop := d + 1 } ∧
    (check_date_has_data respond symbol d = true ↔
      ∃ data, respond (check_date_has_data_request symbol d) = some data ∧
        0 < data.length) ∧
    check_data_exists_request symbol d
        = { symbol := symbol, granularity := 3600,
            start := dayFloor d, stop := dayFloor d + 3600 } ∧
    (check_data_exists respond symbol d = true ↔
      ∃ data, respond (check_data_exists_request symbol d) = some data ∧
        0 < data.length) := by
  refine ⟨rfl, ?_, rfl, ?_⟩
  · unfold check_date_has_data
    cases hr : respond (check_date_has_data_request symbol d) with
    | none => simp
    | some data => simp
  · unfold check_data_exists
    cases hr : respond (check_data_exists_request symbol d) with
    | none => simp
    | some data => simp

/-- C4: under the Hi-Lo policy a bullish candle's path begins at its low
and ends at its high and a bearish candle's path begins at its high and
ends at its low; for the single bullish candle
(open 10, high 15, low 8, close 12) the path is [8, 15] — it starts at 8
and ends at 15 — and the Mean policy produces the single point 11.5. -/
theorem hiLo_mean_policies :
    (∀ cd : Candle, cd.openPrice ≤ cd.closePrice →
        hiLoPath [cd] = [cd.low, cd.high]) ∧
    (∀ cd : Candle, cd.closePrice < cd.openPrice →
        hiLoPath [cd] = [cd.high, cd.low]) ∧
    hiLoPath [⟨0, 10, 15, 8, 12⟩] = [8, 15] ∧
    meanPath [⟨0, 10, 15, 8, 12⟩] = [(23 : ℚ) / 2] := by
  refine ⟨?_, ?_, ?_, ?_⟩
  · intro cd hbull
    simp [hiLoPath, hbull]
  · intro cd hbear
    simp [hiLoPath, not_le.mpr hbear]
  · simp [hiLoPath]
    norm_num
  · simp [meanPath]
    norm_num

/-- Witness for C4 at the concrete bullish candle of the claim. -/
theorem hiLo_mean_policies_witness :
    hiLoPath [⟨0, 10, 15, 8, 12⟩] = [(8 : ℚ), 15] :=
  hiLo_mean_policies.1 ⟨0, 10, 15, 8, 12⟩ (by norm_num)

/-- Every (coin, granularity) pair of the prefetch batch yields exactly
one processed entry, whatever the fetch outcomes are. -/
theorem prefetch_row_pairs (fetchOutcome : String → Nat → Except String Unit)
    (coin : String) (granularities : List Nat) :
    ((granularities.map fun granularity =>
        match fetch_data_for_coin fetchOutcome coin granularity with
        | .ok _ => (coin, granularity, true)
        | .error _ => (coin, granularity, false)).map
      fun t => (t.1, t.2.1))
      = granularities.map fun granularity => (coin, granularity) := by
  induction granularities with
  | nil => simp
  | cons g rest ih =>
    simp only [List.map_cons, List.cons.injEq]
    refine ⟨?_, ih⟩
    cases fetch_data_for_coin fetchOutcome coin g <;> simp

/-- C8: a fatal fetch failure (any raised exception) for one
(coin, granularity) pair is caught and skipped, and every remaining pair
of the batch is still processed: the sequence of processed pairs is the
full coins-by-granularities cross product, independent of the fetch
outcomes, and a failing pair is recorded as reported rather than
aborting the loop. -/
theorem prefetch_processes_all_pairs
    (fetchOutcome : String → Nat → Except String Unit)
    (coins : List String) (granularities : List Nat) :
    ((prefetch_all_data fetchOutcome coins granularities).map
        fun t => (t.1, t.2.1))
      = coins.flatMap (fun coin =>
          granularities.map fun granularity => (coin, granularity)) ∧
    (∀ coin granularity e, coin ∈ coins → granularity ∈ granularities →
        fetchOutcome coin granularity = Except.error e →
        (coin, granularity, false)
          ∈ prefetch_all_data fetchOutcome coins granularities) := by
  constructor
  · induction coins with
    | nil => simp [prefetch_all_data]
    | cons c rest ih =>
      simp only [prefetch_all_data, List.flatMap_cons, List.map_append]
      rw [prefetch_row_pairs]
      exact congrArg _ ih
  · intro coin granularity e hc hg herr
    unfold prefetch_all_data
    rw [List.mem_flatMap]
    refine ⟨coin, hc, ?_⟩
    rw [List.mem_map]
    refine ⟨granularity, hg, ?_⟩
    unfold fetch_data_for_coin
    rw [herr]

/-- Witness for C8: in a two-coin batch where fetching bitcoin at 3600 s
raises, that pair is recorded as failed while the batch still processes
every pair. -/
theorem prefetch_processes_all_pairs_witness :
    ("bitcoin", 3600, false) ∈ prefetch_all_data
      (fun coin granularity =>
        if coin = "bitcoin" && granularity = 3600 then Except.error ("boom")
        else Except.ok ())
      ["bitcoin", "ethereum"] [3600, 86400] :=
  (prefetch_processes_all_pairs _ ["bitcoin", "ethereum"] [3600, 86400]).2
    ("bitcoin") 3600 ("boom") (by simp) (by simp) (by simp)

/-- If every midpoint probed by the `find_earliest_date_optimized` loop
reports no data, `earliest_with_data` keeps its initial value. -/
theorem find_loop_all_fail (probe : Nat → Bool) :
    ∀ n left right e, right - left ≤ n →
      (∀ m ∈ (find_earliest_date_loop probe left right e).2,
        probe m = false) →
      (find_earliest_date_loop probe left right e).1 = e := by
  intro n
  induction n with
  | zero =>
    intro left right e hle h
    rw [find_earliest_date_loop, dif_neg (by omega)]
  | succ n ih =>
    intro left right e hle h
    rw [find_earliest_date_loop] at h ⊢
    by_cases hc : 1 < (right - left) / 86400
    · rw [dif_pos hc] at h ⊢
      by_cases hp : probe (left + (right - left) / 2) = true
      · exact absurd (h (left + (right - left) / 2) (by
          rw [if_pos hp]
          exact List.mem_cons_self _ _)) (by simp [hp])
      · rw [if_neg hp] at h ⊢
        exact ih (left + (right - left) / 2) right e (by omega)
          (fun m hm => h m (List.mem_cons_of_mem _ hm))
    · rw [dif_neg hc]

/-- Against the synthetic boundary oracle whose history starts on the day
of `end_date` itself, every midpoint probed by the loop lies at least one
day below `end_date`, so its midnight truncation is strictly before the
boundary and the probe fails; `earliest_with_data` therefore stays
`None`. -/
theorem find_loop_boundary (product_id : String) (end_date : Nat) :
    ∀ n left, end_date - left ≤ n →
      (find_earliest_date_loop
        (check_data_exists (boundaryOracle (dayFloor end_date)) product_id)
        left end_date none).1 = none := by
  intro n
  induction n with
  | zero =>
    intro left hle
    rw [find_earliest_date_loop, dif_neg (by omega)]
  | succ n ih =>
    intro left hle
    rw [find_earliest_date_loop]
    by_cases hc : 1 < (end_date - left) / 86400
    · rw [dif_pos hc]
      have hpm : check_data_exists (boundaryOracle (dayFloor end_date))
          product_id (left + (end_date - left) / 2) = false := by
        unfold check_data_exists check_data_exists_request boundaryOracle
        rw [if_neg (by unfold dayFloor; simp only; omega)]
        rfl
      rw [if_neg (by simp [hpm])]
      exact ih (left + (end_date - left) / 2) (by omega)
    · rw [dif_neg hc]

/-- C10: for a product not in `KNOWN_START_DATES`,
`find_earliest_date_optimized` returns `None` whenever no midpoint probe
inside the binary-search loop succeeds; in particular, for a product
whose data begins on the day of the upper bound (yesterday) itself, it
returns `None` even though the initial upper-bound probe confirmed that
data exists, because the loop body never sees a successful probe and
`earliest_with_data` stays `None`. -/
theorem find_earliest_date_optimized_boundary_none :
    (∀ (probe : Nat → Bool) (left right : Nat),
      (∀ m ∈ (find_earliest_date_loop probe left right none).2,
        probe m = false) →
      (find_earliest_date_loop probe left right none).1 = none) ∧
    (∀ (product_id : String) (search_from end_date : Nat),
      check_data_exists (boundaryOracle (dayFloor end_date)) product_id
        end_date = true ∧
      find_earliest_date_optimized none
        (boundaryOracle (dayFloor end_date)) product_id
        search_from end_date = none) := by
  constructor
  · intro probe left right h
    exact find_loop_all_fail probe (right - left) left right none le_rfl h
  · intro product_id search_from end_date
    have hcheck : check_data_exists (boundaryOracle (dayFloor end_date))
        product_id end_date = true := by
      unfold check_data_exists check_data_exists_request boundaryOracle
      rw [if_pos le_rfl]
      rfl
    refine ⟨hcheck, ?_⟩
    unfold find_earliest_date_optimized
    rw [if_pos hcheck]
    exact find_loop_boundary product_id end_date (end_date - search_from)
      search_from le_rfl

/-- Witness for C10: a loop run in which no probe succeeds leaves
`earliest_with_data` at `None`. -/
theorem find_earliest_date_optimized_boundary_witness :
    (find_earliest_date_loop (fun _ => false) 0 300000 none).1 = none :=
  find_earliest_date_optimized_boundary_none.1 (fun _ => false) 0 300000
    (fun _ _ => rfl)
